import Mathlib

/-!
# vps-slam: `match_streetview.cpp`

A shallow embedding of `src/match_streetview.cpp` (class `MatchGoogleStreetView`)
and theorems about it.

Conventions of the embedding.

* `float` / `double` values are represented by the rational number they denote
  (`ℚ`).  The only arithmetic on them that a theorem below depends on is the
  ratio test `d0 < 0.75 * d1`: `d0`, `d1` are `float`s promoted to `double`, and
  the product of a `float` by `0.75` (or `0.5`) is exact in `double`, so on finite
  distances the C++ comparison is the comparison of the rationals.
* OpenCV, libcurl and nlohmann::json are libraries, not code of the repository.
  Their operations are the fields of `Libs`; every call of one is recorded as
  an `Event`, in program order.  Faults raised inside a library call are not
  modelled, console output and tick-count timing are left out.  The two curl
  write callbacks run inside `curl_easy_perform`; their effect is the body or
  buffer the request yields.
* A member function is a function `Exec α`: it takes the machine (the object's
  fields and the events so far) and gives back a value or a `Fault`, and the
  machine it leaves behind.  A C++ exception, and an out-of-range `operator[]`
  on a `std::vector`, are `Fault`s.
-/

namespace VpsSlam

/-! ## Data model -/

/-- The part of `cv::Mat` the code looks at: its size, channel count, payload. -/
structure Mat where
  rows : Nat
  cols : Nat
  channels : Nat
  data : List Nat
deriving DecidableEq, Repr

/-- The default-constructed `cv::Mat()`: no rows, no columns. -/
def Mat.nil : Mat := { rows := 0, cols := 0, channels := 1, data := [] }

/-- The method `cv::Mat::empty()`. -/
def Mat.empty (m : Mat) : Bool := m.rows == 0 || m.cols == 0

/-- The type `cv::Point2f`. -/
structure Point2f where
  x : ℚ
  y : ℚ
deriving DecidableEq, Repr

/-- The type `cv::KeyPoint`. -/
structure KeyPoint where
  pt : Point2f
  size : ℚ
  angle : ℚ
  response : ℚ
  octave : Int
  class_id : Int
deriving DecidableEq, Repr

/-- The type `cv::DMatch`; the indices are the non-negative ones a matcher yields. -/
structure DMatch where
  queryIdx : Nat
  trainIdx : Nat
  imgIdx : Nat
  distance : ℚ
deriving DecidableEq, Repr

/-- The record `MatchGoogleStreetView::StreetViewMetadata`. -/
structure StreetViewMetadata where
  available : Bool
  latitude : ℚ
  longitude : ℚ
  pano_id : String
  heading : ℚ
deriving DecidableEq, Repr

/-- A value of `nlohmann::json`. -/
inductive Json where
  | null : Json
  | boolean : Bool → Json
  | number : ℚ → Json
  | string : String → Json
  | array : List Json → Json
  | object : List (String × Json) → Json

/-- What a call can end in other than a returned value. -/
inductive Fault where
  | runtime_error (what : String)
  | json_exception
  | out_of_range
deriving DecidableEq, Repr

/-- The calls into the libraries, as they are recorded. -/
inductive Event where
  | curlMetadata (lat lon : ℚ)
  | curlImage (metadata : StreetViewMetadata)
  | imdecode (buffer : List Nat)
  | cvtColor (src : Mat)
  | detectAndCompute (image : Mat)
  | drawKeypoints (image : Mat) (keypoints : List KeyPoint)
  | knnMatch (queryDescriptors trainDescriptors : Mat) (k : Nat)
  | drawMatches (img1 : Mat) (keypoints1 : List KeyPoint) (img2 : Mat)
      (keypoints2 : List KeyPoint) (matches1to2 : List DMatch)
  | findHomography (srcPoints dstPoints : List Point2f) (ransacReprojThreshold : ℚ)
  | resize (src : Mat) (width height : Nat)
  | imshow (winname : String) (mat : Mat)
  | waitKey (delay : Int)
deriving DecidableEq, Repr

/-- The fields of a `MatchGoogleStreetView` object. -/
structure MatchGoogleStreetView where
  gps_lat : ℚ
  gps_long : ℚ
  has_streetview_image_ : Bool
  last_streetview_image_ : Mat
  last_metadata_ : StreetViewMetadata
deriving DecidableEq, Repr

/-- The libraries the code calls, and what the missing header fixes. -/
structure Libs where
  /-- A default-constructed `StreetViewMetadata` (the header is not in `src/`). -/
  metadata0 : StreetViewMetadata
  /-- The metadata request for a coordinate: `none` when `curl_easy_init` gives no
  handle or `curl_easy_perform` is not `CURLE_OK`, else the body received. -/
  curlMetadata : ℚ → ℚ → Option String
  /-- The function `json::parse`; `none` when it throws. -/
  parse : String → Option Json
  /-- The value `std::atan2(dx, dy) * 180.0 / M_PI`. -/
  atan2_deg : ℚ → ℚ → ℚ
  /-- The image request built from a metadata record: `none` when there is no
  handle or the transfer is not `CURLE_OK`, else the bytes received. -/
  curlImage : StreetViewMetadata → Option (List Nat)
  /-- The function `cv::imdecode(_, cv::IMREAD_COLOR)`. -/
  imdecode : List Nat → Mat
  /-- The function `cv::cvtColor(_, _, cv::COLOR_BGR2GRAY)`. -/
  cvtColor : Mat → Mat
  /-- The ORB `detectAndCompute`: key points and their descriptors. -/
  detectAndCompute : Mat → List KeyPoint × Mat
  /-- The method `cv::BFMatcher::knnMatch`. -/
  knnMatch : Mat → Mat → Nat → List (List DMatch)
  /-- The function `cv::drawMatches`. -/
  drawMatches : Mat → List KeyPoint → Mat → List KeyPoint → List DMatch → Mat
  /-- The function `cv::findHomography(_, _, cv::RANSAC, _)`. -/
  findHomography : List Point2f → List Point2f → ℚ → Mat
  /-- The function `cv::resize`. -/
  resize : Mat → Nat → Nat → Mat

/-- The object and the library calls made so far. -/
structure Machine where
  self : MatchGoogleStreetView
  trace : List Event
deriving DecidableEq, Repr

/-- A computation on the machine that returns an `α` or ends in a fault. -/
def Exec (α : Type) : Type := Machine → Except Fault α × Machine

/-- Return a value. -/
def Exec.ret {α : Type} (a : α) : Exec α := fun s => (Except.ok a, s)

/-- Run `m`, then `f` on its value; a fault of `m` ends the computation. -/
def Exec.andThen {α β : Type} (m : Exec α) (f : α → Exec β) : Exec β := fun s =>
  match m s with
  | (Except.ok a, s1) => f a s1
  | (Except.error e, s1) => (Except.error e, s1)

instance : Monad Exec where
  pure := Exec.ret
  bind := Exec.andThen

/-- Throw. -/
def raise {α : Type} (e : Fault) : Exec α := fun s => (Except.error e, s)

/-- Record a library call. -/
def emit (ev : Event) : Exec Unit := fun s =>
  (Except.ok (), { s with trace := s.trace ++ [ev] })

/-- Read the object. -/
def getSelf : Exec MatchGoogleStreetView := fun s => (Except.ok s.self, s)

/-- Update the object. -/
def modifySelf (f : MatchGoogleStreetView → MatchGoogleStreetView) : Exec Unit := fun s =>
  (Except.ok (), { s with self := f s.self })

/-- Lift a pure result-or-fault. -/
def liftExcept {α : Type} : Except Fault α → Exec α
  | Except.ok a => Exec.ret a
  | Except.error e => raise e

/-! ## nlohmann::json, as far as `ParseMetadataJson` uses it -/

/-- The access `j[key]` on a non-const value: a null value becomes an object, an
object yields the member (null when it has none), anything else throws. -/
def Json.index (j : Json) (key : String) : Except Fault Json :=
  match j with
  | Json.null => Except.ok Json.null
  | Json.object members => Except.ok ((members.lookup key).getD Json.null)
  | _ => Except.error Fault.json_exception

/-- The conversion `get<double>()`: a number, or it throws. -/
def Json.get_double (j : Json) : Except Fault ℚ :=
  match j with
  | Json.number q => Except.ok q
  | _ => Except.error Fault.json_exception

/-- The conversion `get<std::string>()`: a string, or it throws. -/
def Json.get_string (j : Json) : Except Fault String :=
  match j with
  | Json.string t => Except.ok t
  | _ => Except.error Fault.json_exception

/-- The method `contains(key)`. -/
def Json.contains (j : Json) (key : String) : Bool :=
  match j with
  | Json.object members => (members.lookup key).isSome
  | _ => false

/-- The comparison `j == "text"` with a string literal. -/
def Json.eq_literal (j : Json) (text : String) : Bool :=
  match j with
  | Json.string t => t == text
  | _ => false

/-! ## The member functions -/

/-- The constructor `MatchGoogleStreetView::MatchGoogleStreetView()`. -/
def MatchGoogleStreetView.new (e : Libs) : MatchGoogleStreetView :=
  { gps_lat := 0, gps_long := 0, has_streetview_image_ := false,
    last_streetview_image_ := Mat.nil, last_metadata_ := e.metadata0 }

/-- The member `SetGPSCoordinates(lat, lon)`. -/
def SetGPSCoordinates (lat lon : ℚ) : Exec Unit :=
  modifySelf fun self =>
    { self with gps_lat := lat, gps_long := lon, has_streetview_image_ := false }

/-- The `try` block of `ParseMetadataJson`, the record written through the
reference as it stands when the block is left: `ok true` is `return true`,
`ok false` is falling out of the `if`, `error` is a thrown exception. -/
def ParseMetadataJson.tryBlock (e : Libs) (self : MatchGoogleStreetView)
    (json_str : String) (metadata : StreetViewMetadata) :
    Except Fault Bool × StreetViewMetadata :=
  match e.parse json_str with
  | none => (Except.error Fault.json_exception, metadata)
  | some j =>
    match j.index "status" with
    | Except.error f => (Except.error f, metadata)
    | Except.ok status =>
      if status.eq_literal "OK" then
        let metadata := { metadata with available := true }
        match (j.index "location").bind fun l => (l.index "lat").bind Json.get_double with
        | Except.error f => (Except.error f, metadata)
        | Except.ok lat =>
          let metadata := { metadata with latitude := lat }
          match (j.index "location").bind fun l => (l.index "lng").bind Json.get_double with
          | Except.error f => (Except.error f, metadata)
          | Except.ok lng =>
            let metadata := { metadata with longitude := lng }
            match (j.index "pano_id").bind Json.get_string with
            | Except.error f => (Except.error f, metadata)
            | Except.ok pano =>
              let metadata := { metadata with pano_id := pano }
              if j.contains "heading" then
                match (j.index "heading").bind Json.get_double with
                | Except.error f => (Except.error f, metadata)
                | Except.ok h => (Except.ok true, { metadata with heading := h })
              else
                let dx := metadata.longitude - self.gps_long
                let dy := metadata.latitude - self.gps_lat
                (Except.ok true, { metadata with heading := e.atan2_deg dx dy })
      else (Except.ok false, metadata)

/-- The member `ParseMetadataJson(json_str, metadata)`: the value returned and the
record the reference parameter holds afterwards. -/
def ParseMetadataJson (e : Libs) (self : MatchGoogleStreetView)
    (json_str : String) (metadata : StreetViewMetadata) : Bool × StreetViewMetadata :=
  match ParseMetadataJson.tryBlock e self json_str metadata with
  | (Except.ok b, metadata) => (b, metadata)
  | (Except.error _, metadata) => (false, metadata)

/-- The member `QueryMetadata()`. -/
def QueryMetadata (e : Libs) : Exec StreetViewMetadata := do
  let self ← getSelf
  let metadata := { e.metadata0 with available := false }
  emit (Event.curlMetadata self.gps_lat self.gps_long)
  match e.curlMetadata self.gps_lat self.gps_long with
  | some readBuffer => pure (ParseMetadataJson e self readBuffer metadata).2
  | none => pure metadata

/-- The member `QueryStreetViewImage(metadata)`. -/
def QueryStreetViewImage (e : Libs) (metadata : StreetViewMetadata) : Exec Mat := do
  if !metadata.available then
    pure Mat.nil
  else
    emit (Event.curlImage metadata)
    match e.curlImage metadata with
    | some buffer =>
      if !buffer.isEmpty then
        emit (Event.imdecode buffer)
        pure (e.imdecode buffer)
      else pure Mat.nil
    | none => pure Mat.nil

/-- The ratio-test loop of `GetMatchingPoints`, its constant `0.75` as the
parameter `ratio`: rows `matches[0]`, `matches[1]`, ... are visited in order, and
`good` is the vector being built. -/
def ratioTest (ratio : ℚ) : List (List DMatch) → List DMatch → Except Fault (List DMatch)
  | [], good => Except.ok good
  | row :: rest, good =>
    match row[0]?, row[1]? with
    | some m0, some m1 =>
      if m0.distance < ratio * m1.distance then ratioTest ratio rest (good ++ [m0])
      else ratioTest ratio rest good
    | _, _ => Except.error Fault.out_of_range

/-- The loop of `GetMatchingPoints` that fills `src_pts` and `dst_pts`. -/
def collectPoints (keypoints1 keypoints2 : List KeyPoint) :
    List DMatch → Except Fault (List Point2f × List Point2f)
  | [] => Except.ok ([], [])
  | g :: rest =>
    match keypoints1[g.queryIdx]?, keypoints2[g.trainIdx]? with
    | some k1, some k2 =>
      (collectPoints keypoints1 keypoints2 rest).map fun p => (k1.pt :: p.1, k2.pt :: p.2)
    | _, _ => Except.error Fault.out_of_range

set_option linter.unusedVariables false in
/-- The member `GetMatchingPoints(img1, img2)`. -/
def GetMatchingPoints (e : Libs) (img1 img2 : Mat) : Exec Mat := do
  if img1.empty || img2.empty then
    raise (Fault.runtime_error "Image is empty.")
  else
    let img1_gray ←
      if img1.channels == 3 then do
        emit (Event.cvtColor img1)
        pure (e.cvtColor img1)
      else pure img1
    let img2_gray ←
      if img2.channels == 3 then do
        emit (Event.cvtColor img2)
        pure (e.cvtColor img2)
      else pure img2
    emit (Event.detectAndCompute img1)
    let (keypoints1, descriptors1) := e.detectAndCompute img1
    emit (Event.drawKeypoints img1 keypoints1)
    emit (Event.detectAndCompute img2)
    let (keypoints2, descriptors2) := e.detectAndCompute img2
    emit (Event.drawKeypoints img2 keypoints2)
    emit (Event.knnMatch descriptors1 descriptors2 2)
    let knn := e.knnMatch descriptors1 descriptors2 2
    let good ← liftExcept (ratioTest 0.75 knn [])
    emit (Event.drawMatches img1 keypoints1 img2 keypoints2 good)
    let img_matches := e.drawMatches img1 keypoints1 img2 keypoints2 good
    let (src_pts, dst_pts) ← liftExcept (collectPoints keypoints1 keypoints2 good)
    if good.length ≥ 4 then
      emit (Event.findHomography src_pts dst_pts 5.0)
      let H := e.findHomography src_pts dst_pts 5.0
    pure img_matches

set_option linter.unusedVariables false in
/-- The member `GetStreetView(lat, lon, radius)`. -/
def GetStreetView (e : Libs) (lat lon radius : ℚ) : Exec Mat := do
  modifySelf fun self => { self with gps_lat := lat, gps_long := lon }
  let metadata ← QueryMetadata e
  if !metadata.available then
    pure Mat.nil
  else
    let streetview_img ← QueryStreetViewImage e metadata
    if streetview_img.empty then
      pure Mat.nil
    else
      modifySelf fun self =>
        { self with last_streetview_image_ := streetview_img, last_metadata_ := metadata,
                    has_streetview_image_ := true }
      pure streetview_img

/-- The member `retrieve(gps_lat, gps_long, roi_radius, image_cam)`: the `int` it
returns and the image its reference parameter holds afterwards. -/
def retrieve (e : Libs) (gps_lat gps_long roi_radius : ℚ) (image_cam : Mat) :
    Exec (Int × Mat) := do
  let img1 ← GetStreetView e gps_lat gps_long roi_radius
  emit (Event.resize image_cam 640 480)
  let image_cam := e.resize image_cam 640 480
  let img_matches ← GetMatchingPoints e img1 image_cam
  emit (Event.imshow "Matches" img_matches)
  emit (Event.waitKey 0)
  pure (0, image_cam)

/-- The member `GetHomography(current_image)`. -/
def GetHomography (e : Libs) (current_image : Mat) : Exec Mat := do
  let metadata ← QueryMetadata e
  if !metadata.available then
    pure Mat.nil
  else
    let image ← QueryStreetViewImage e metadata
    modifySelf fun self => { self with last_streetview_image_ := image }
    if image.empty then
      pure Mat.nil
    else
      modifySelf fun self => { self with last_metadata_ := metadata }
      GetMatchingPoints e current_image image

/-! ## Definitions used to state the properties -/

/-- The accepted correspondences in the words of the specification: the rows are
kept in order, a row contributes its nearest candidate when that candidate's
distance is below `ratio` times the second-nearest one's, and nothing else. -/
def ratioAccepted (ratio : ℚ) (knn : List (List DMatch)) : List DMatch :=
  knn.filterMap fun row =>
    match row with
    | nearest :: second :: _ =>
      if nearest.distance < ratio * second.distance then some nearest else none
    | _ => none

/-- The library calls of `GetMatchingPoints` up to and including `knnMatch`. -/
def detectionEvents (e : Libs) (img1 img2 : Mat) : List Event :=
  (if img1.channels == 3 then [Event.cvtColor img1] else []) ++
  (if img2.channels == 3 then [Event.cvtColor img2] else []) ++
  [Event.detectAndCompute img1,
   Event.drawKeypoints img1 (e.detectAndCompute img1).1,
   Event.detectAndCompute img2,
   Event.drawKeypoints img2 (e.detectAndCompute img2).1,
   Event.knnMatch (e.detectAndCompute img1).2 (e.detectAndCompute img2).2 2]

/-- The rows `knnMatch` yields in `GetMatchingPoints(img1, img2)`. -/
def knnRows (e : Libs) (img1 img2 : Mat) : List (List DMatch) :=
  e.knnMatch (e.detectAndCompute img1).2 (e.detectAndCompute img2).2 2

/-- The image `drawMatches` yields in `GetMatchingPoints(img1, img2)` for `good`. -/
def imgMatches (e : Libs) (img1 img2 : Mat) (good : List DMatch) : Mat :=
  e.drawMatches img1 (e.detectAndCompute img1).1 img2 (e.detectAndCompute img2).1 good

/-- The library calls of `GetMatchingPoints` up to and including `drawMatches`. -/
def matchingEvents (e : Libs) (img1 img2 : Mat) (good : List DMatch) : List Event :=
  detectionEvents e img1 img2 ++
    [Event.drawMatches img1 (e.detectAndCompute img1).1 img2 (e.detectAndCompute img2).1 good]

/-- The machine in which `GetHomography` calls `GetMatchingPoints`: `s` with the
fetched image and its metadata stored in the object. -/
def storeReference (s : Machine) (image : Mat) (metadata : StreetViewMetadata) : Machine :=
  { s with self := { s.self with last_streetview_image_ := image, last_metadata_ := metadata } }

/-- A call of the consensus estimator. -/
def Event.isEstimator : Event → Bool
  | Event.findHomography _ _ _ => true
  | _ => false

/-- The two ways this code tells its caller of a failure: a thrown exception, or
the empty image that `GetHomography` and `GetStreetView` return. -/
def failureShaped (r : Except Fault Mat) : Bool :=
  match r with
  | Except.ok m => m.empty
  | Except.error _ => true

/-! ## Concrete inputs -/

/-- Four rows of two candidates each, nearest first. -/
def sampleKnn : List (List DMatch) :=
  [[⟨0, 0, 0, 1⟩, ⟨0, 1, 0, 2⟩],
   [⟨1, 0, 0, 3⟩, ⟨1, 1, 0, 5⟩],
   [⟨2, 1, 0, 1⟩, ⟨2, 0, 0, 4⟩],
   [⟨3, 0, 0, 4⟩, ⟨3, 1, 0, 5⟩]]

/-- A metadata response whose status is ZERO_RESULTS. -/
def bodyZeroResults : String := "\x7b\"status\":\"ZERO_RESULTS\"\x7d"

/-- A metadata response whose status is OK and that has no other member. -/
def bodyOkOnly : String := "\x7b\"status\":\"OK\"\x7d"

/-- A metadata response with status OK, a location and a pano_id, without heading. -/
def bodyFull : String :=
  "\x7b\"status\":\"OK\",\"location\":\x7b\"lat\":41,\"lng\":2\x7d,\"pano_id\":\"p1\"\x7d"

/-- A small world: the metadata request for a coordinate is answered with
`coverage lat lon`; the payload entries of an image are its features, one key
point and one descriptor row each; the matcher ranks the train descriptors by
index, at distances 1, 2, ...; `drawMatches` gives the side-by-side canvas. -/
def world (coverage : ℚ → ℚ → Option String) : Libs where
  metadata0 := ⟨false, 0, 0, "", 0⟩
  curlMetadata := coverage
  parse := fun text =>
    if text = bodyZeroResults then
      some (Json.object [("status", Json.string "ZERO_RESULTS")])
    else if text = bodyOkOnly then
      some (Json.object [("status", Json.string "OK")])
    else if text = bodyFull then
      some (Json.object [("status", Json.string "OK"),
        ("location", Json.object [("lat", Json.number 41), ("lng", Json.number 2)]),
        ("pano_id", Json.string "p1")])
    else none
  atan2_deg := fun _ _ => 0
  curlImage := fun _ => some [1, 2, 3]
  imdecode := fun buffer => ⟨480, 640, 3, buffer⟩
  cvtColor := fun src => { src with channels := 1 }
  detectAndCompute := fun image =>
    (image.data.map fun v => ⟨⟨v, 0⟩, 31, 0, 0, 0, -1⟩, ⟨image.data.length, 32, 1, image.data⟩)
  knnMatch := fun query train k =>
    (List.range query.rows).map fun i =>
      ((List.range train.rows).take k).map fun j => ⟨i, j, 0, (j : ℚ) + 1⟩
  drawMatches := fun img1 _ img2 _ _ => ⟨max img1.rows img2.rows, img1.cols + img2.cols, 3, []⟩
  findHomography := fun _ _ _ => ⟨3, 3, 1, [1, 0, 0, 0, 1, 0, 0, 0, 1]⟩
  resize := fun src width height => { src with rows := height, cols := width }

/-- No coverage anywhere. -/
def noCoverage : ℚ → ℚ → Option String := fun _ _ => some bodyZeroResults

/-- Coverage on the equator only. -/
def equatorCoverage : ℚ → ℚ → Option String := fun lat _ =>
  if lat = 0 then some bodyFull else some bodyZeroResults

/-- A single-channel image with four features. -/
def imgFour : Mat := ⟨2, 2, 1, [7, 8, 9, 10]⟩

/-- A single-channel image with two features. -/
def imgTwo : Mat := ⟨1, 2, 1, [5, 6]⟩

/-- A single-channel image with one feature. -/
def imgOne : Mat := ⟨1, 1, 1, [4]⟩

/-- A three-channel image with two features. -/
def imgBgr : Mat := ⟨1, 2, 3, [5, 6]⟩

/-- The reference image the small world serves: three channels, three features. -/
def imgRef : Mat := ⟨480, 640, 3, [1, 2, 3]⟩

/-- A three-channel camera frame with three features. -/
def imgCam : Mat := ⟨10, 10, 3, [1, 2, 3]⟩

/-- The metadata record the small world gives on the equator. -/
def metaEquator : StreetViewMetadata := ⟨true, 41, 2, "p1", 0⟩

/-- A freshly constructed object that has made no library call. -/
def fresh (e : Libs) : Machine := { self := MatchGoogleStreetView.new e, trace := [] }

/-- The machine after a fresh object has fetched the reference image at (0, 0). -/
def visitedEquator : Machine :=
  (GetStreetView (world equatorCoverage) 0 0 50 (fresh (world equatorCoverage))).2

/-- A world in which every metadata response is the bare OK body. -/
def bareOkWorld : Libs := world fun _ _ => some bodyOkOnly

/-! ## Running the computations -/

theorem bind_run {α β : Type} (m : Exec α) (f : α → Exec β) (s : Machine) :
    (m >>= f) s = match m s with
      | (Except.ok a, s1) => f a s1
      | (Except.error e, s1) => (Except.error e, s1) := rfl

theorem pure_run {α : Type} (a : α) (s : Machine) :
    (pure a : Exec α) s = (Except.ok a, s) := rfl

theorem emit_run (ev : Event) (s : Machine) :
    emit ev s = (Except.ok (), { s with trace := s.trace ++ [ev] }) := rfl

theorem raise_run {α : Type} (f : Fault) (s : Machine) :
    (raise f : Exec α) s = (Except.error f, s) := rfl

theorem getSelf_run (s : Machine) : getSelf s = (Except.ok s.self, s) := rfl

theorem modifySelf_run (f : MatchGoogleStreetView → MatchGoogleStreetView) (s : Machine) :
    modifySelf f s = (Except.ok (), { s with self := f s.self }) := rfl

theorem liftExcept_run {α : Type} (r : Except Fault α) (s : Machine) :
    liftExcept r s = (r, s) := by
  cases r <;> rfl

/-- The run of `GetMatchingPoints` on two non-empty images when neither loop faults. -/
theorem GetMatchingPoints_run (e : Libs) (img1 img2 : Mat) (s : Machine)
    (h1 : img1.empty = false) (h2 : img2.empty = false)
    (good : List DMatch) (src dst : List Point2f)
    (hgood : ratioTest 0.75 (knnRows e img1 img2) [] = Except.ok good)
    (hpts : collectPoints (e.detectAndCompute img1).1 (e.detectAndCompute img2).1 good
      = Except.ok (src, dst)) :
    GetMatchingPoints e img1 img2 s =
      (Except.ok (imgMatches e img1 img2 good),
       { s with trace := s.trace ++ (matchingEvents e img1 img2 good ++
           (if 4 ≤ good.length then [Event.findHomography src dst 5.0] else [])) }) := by
  unfold knnRows at hgood
  unfold GetMatchingPoints matchingEvents detectionEvents imgMatches
  simp only [h1, h2, Bool.or_self, Bool.false_eq_true, if_false]
  by_cases c1 : (img1.channels == 3) = true <;> by_cases c2 : (img2.channels == 3) = true <;>
    by_cases c4 : 4 ≤ good.length <;>
    simp [c1, c2, c4, bind_run, pure_run, emit_run, liftExcept_run, hgood, hpts]

/-- The run of `GetMatchingPoints` when an image is empty. -/
theorem GetMatchingPoints_empty (e : Libs) (img1 img2 : Mat) (s : Machine)
    (h : img1.empty = true ∨ img2.empty = true) :
    GetMatchingPoints e img1 img2 s =
      (Except.error (Fault.runtime_error "Image is empty."), s) := by
  unfold GetMatchingPoints
  have hc : (img1.empty || img2.empty) = true := by
    rcases h with h | h <;> simp [h]
  simp [hc, raise_run]

/-- With metadata available and a non-empty image fetched, `GetHomography` is the
call of `GetMatchingPoints` it ends with. -/
theorem GetHomography_reaches (e : Libs) (current_image image : Mat) (s s1 s2 : Machine)
    (metadata : StreetViewMetadata)
    (hmeta : QueryMetadata e s = (Except.ok metadata, s1))
    (havail : metadata.available = true)
    (hfetch : QueryStreetViewImage e metadata s1 = (Except.ok image, s2))
    (himage : image.empty = false) :
    GetHomography e current_image s =
      GetMatchingPoints e current_image image (storeReference s2 image metadata) := by
  unfold GetHomography storeReference
  simp [bind_run, pure_run, modifySelf_run, hmeta, havail, hfetch, himage]

/-- On rows of at least two candidates the loop never faults and appends to
`good` what the specification accepts. -/
theorem ratioTest_append (ratio : ℚ) (knn : List (List DMatch))
    (hrows : ∀ row ∈ knn, 2 ≤ row.length) (good : List DMatch) :
    ratioTest ratio knn good = Except.ok (good ++ ratioAccepted ratio knn) := by
  induction knn generalizing good with
  | nil => simp [ratioTest, ratioAccepted]
  | cons row rest ih =>
    have hrest : ∀ r ∈ rest, 2 ≤ r.length := fun r hr => hrows r (List.mem_cons_of_mem _ hr)
    have hrow : 2 ≤ row.length := hrows row (List.mem_cons_self _ _)
    match row, hrow with
    | nearest :: second :: tail, _ =>
      by_cases c : nearest.distance < ratio * second.distance
      · simp [ratioTest, ratioAccepted, c, ih hrest]
      · simp [ratioTest, ratioAccepted, c, ih hrest]

/-- With non-negative distances a smaller ratio accepts a sub-list. -/
theorem ratioAccepted_sublist (r1 r2 : ℚ) (hr : r1 ≤ r2) (knn : List (List DMatch))
    (hnn : ∀ row ∈ knn, ∀ m ∈ row, 0 ≤ m.distance) :
    (ratioAccepted r1 knn).Sublist (ratioAccepted r2 knn) := by
  induction knn with
  | nil => simp [ratioAccepted]
  | cons row rest ih =>
    have hrest := ih (fun r hr => hnn r (List.mem_cons_of_mem _ hr))
    have hrow := hnn row (List.mem_cons_self _ _)
    unfold ratioAccepted at hrest ⊢
    match row, hrow with
    | [], _ => simpa using hrest
    | [_], _ => simpa using hrest
    | nearest :: second :: tail, hrow =>
      have h2 : 0 ≤ second.distance := hrow second (by simp)
      have hle : r1 * second.distance ≤ r2 * second.distance :=
        mul_le_mul_of_nonneg_right hr h2
      by_cases c1 : nearest.distance < r1 * second.distance
      · have c2 : nearest.distance < r2 * second.distance := lt_of_lt_of_le c1 hle
        simp [List.filterMap_cons, c1, c2]
        exact hrest
      · by_cases c2 : nearest.distance < r2 * second.distance
        · simp [List.filterMap_cons, c1, c2]
          exact List.Sublist.cons _ hrest
        · simp [List.filterMap_cons, c1, c2]
          exact hrest

/-- A row of fewer than two candidates anywhere in the list makes the loop fault. -/
theorem ratioTest_short_row (ratio : ℚ) (knn : List (List DMatch))
    (hshort : ∃ row ∈ knn, row.length < 2) (good : List DMatch) :
    ratioTest ratio knn good = Except.error Fault.out_of_range := by
  induction knn generalizing good with
  | nil => simp at hshort
  | cons row rest ih =>
    match row with
    | [] => simp [ratioTest]
    | [_] => simp [ratioTest]
    | nearest :: second :: tail =>
      have hrest : ∃ r ∈ rest, r.length < 2 := by
        obtain ⟨r, hr, hlen⟩ := hshort
        rcases List.mem_cons.mp hr with h | h
        · subst h
          simp only [List.length_cons] at hlen
          omega
        · exact ⟨r, h, hlen⟩
      by_cases c : nearest.distance < ratio * second.distance
      · simp [ratioTest, c, ih hrest]
      · simp [ratioTest, c, ih hrest]

theorem sampleKnn_rows : ∀ row ∈ sampleKnn, 2 ≤ row.length := by
  simp [sampleKnn]

theorem sampleKnn_nonneg : ∀ row ∈ sampleKnn, ∀ m ∈ row, 0 ≤ m.distance := by
  simp [sampleKnn]

/-! ## The ratio test -/

/-- C1. On every list of 2-nearest-neighbour rows that hold at least two candidates
each, the ratio-test loop of `GetMatchingPoints`, started on the empty vector,
ends without a fault and `good` is exactly the list the specification describes:
in the order of the rows, the nearest candidate of each row whose distance is
strictly below 0.75 times the second-nearest candidate's distance. -/
theorem ratioTest_is_accepted (knn : List (List DMatch))
    (hrows : ∀ row ∈ knn, 2 ≤ row.length) :
    ratioTest 0.75 knn [] = Except.ok (ratioAccepted 0.75 knn) := by
  simpa using ratioTest_append 0.75 knn hrows []

/-- C1, at four concrete rows: the first three pass the test, the fourth does not. -/
theorem ratioTest_is_accepted_witness :
    (∀ row ∈ sampleKnn, 2 ≤ row.length) ∧
    ratioTest 0.75 sampleKnn [] = Except.ok (ratioAccepted 0.75 sampleKnn) ∧
    ratioAccepted 0.75 sampleKnn = [⟨0, 0, 0, 1⟩, ⟨1, 0, 0, 3⟩, ⟨2, 1, 0, 1⟩] :=
  ⟨sampleKnn_rows, ratioTest_is_accepted sampleKnn sampleKnn_rows, by
    norm_num [ratioAccepted, sampleKnn, List.filterMap_cons]⟩

/-- C6. When the second image has exactly one descriptor, `knnMatch` yields rows
of a single candidate; the loop then reads `matches[0][1]` past the end of the
row, and `GetMatchingPoints` ends in that fault right after `knnMatch` instead of
going on with no correspondence. -/
theorem one_descriptor_faults :
    ((world noCoverage).detectAndCompute imgOne).2.rows = 1 ∧
    knnRows (world noCoverage) imgFour imgOne =
      [[⟨0, 0, 0, 1⟩], [⟨1, 0, 0, 1⟩], [⟨2, 0, 0, 1⟩], [⟨3, 0, 0, 1⟩]] ∧
    ratioTest 0.75 (knnRows (world noCoverage) imgFour imgOne) [] =
      Except.error Fault.out_of_range ∧
    GetMatchingPoints (world noCoverage) imgFour imgOne (fresh (world noCoverage)) =
      (Except.error Fault.out_of_range,
       { fresh (world noCoverage) with
          trace := detectionEvents (world noCoverage) imgFour imgOne }) :=
  ⟨rfl, by norm_num [knnRows, world, imgFour, imgOne, List.range, List.range.loop], rfl, rfl⟩

/-- C8. On every list of rows of at least two candidates with non-negative
distances, the loop run with 0.5 and the loop run with 0.75 both end without a
fault, what 0.5 accepts is a sub-list of what 0.75 accepts, and so it is no
longer. -/
theorem ratioTest_half_sublist (knn : List (List DMatch))
    (hrows : ∀ row ∈ knn, 2 ≤ row.length)
    (hnn : ∀ row ∈ knn, ∀ m ∈ row, 0 ≤ m.distance) :
    ∃ good50 good75 : List DMatch,
      ratioTest 0.5 knn [] = Except.ok good50 ∧
      ratioTest 0.75 knn [] = Except.ok good75 ∧
      good50.Sublist good75 ∧ good50.length ≤ good75.length := by
  have hsub := ratioAccepted_sublist 0.5 0.75 (by norm_num) knn hnn
  refine ⟨ratioAccepted 0.5 knn, ratioAccepted 0.75 knn, ?_, ?_, hsub, hsub.length_le⟩
  · simpa using ratioTest_append 0.5 knn hrows []
  · simpa using ratioTest_append 0.75 knn hrows []

/-- C8, at four concrete rows. -/
theorem ratioTest_half_sublist_witness :
    (∀ row ∈ sampleKnn, 2 ≤ row.length) ∧
    (∀ row ∈ sampleKnn, ∀ m ∈ row, 0 ≤ m.distance) ∧
    ∃ good50 good75 : List DMatch,
      ratioTest 0.5 sampleKnn [] = Except.ok good50 ∧
      ratioTest 0.75 sampleKnn [] = Except.ok good75 ∧
      good50.Sublist good75 ∧ good50.length ≤ good75.length :=
  ⟨sampleKnn_rows, sampleKnn_nonneg,
    ratioTest_half_sublist sampleKnn sampleKnn_rows sampleKnn_nonneg⟩

/-! ## The matching pipeline -/

/-- None of the calls up to `drawMatches` is a call of the estimator. -/
theorem matchingEvents_no_estimator (e : Libs) (img1 img2 : Mat) (good : List DMatch) :
    ∀ ev ∈ matchingEvents e img1 img2 good, ev.isEstimator = false := by
  intro ev hev
  simp only [matchingEvents, detectionEvents, List.mem_append, List.mem_cons,
    List.mem_singleton, List.not_mem_nil, or_false] at hev
  rcases hev with ((h | h) | h) | h
  · split_ifs at h
    · rw [List.mem_singleton.mp h]; rfl
    · cases h
  · split_ifs at h
    · rw [List.mem_singleton.mp h]; rfl
    · cases h
  · rcases h with h | h | h | h | h <;> rw [h] <;> rfl
  · rw [h]; rfl

/-- The accepted correspondences of the one-feature image against the reference. -/
theorem knnRows_imgOne_imgRef :
    ratioTest 0.75 (knnRows (world equatorCoverage) imgOne imgRef) [] =
      Except.ok [⟨0, 0, 0, 1⟩] := by
  norm_num [ratioTest, knnRows, world, imgOne, imgRef, List.range, List.range.loop]

/-- The accepted correspondences of the four-feature image against the reference. -/
theorem knnRows_imgFour_imgRef :
    ratioTest 0.75 (knnRows (world equatorCoverage) imgFour imgRef) [] =
      Except.ok [⟨0, 0, 0, 1⟩, ⟨1, 0, 0, 1⟩, ⟨2, 0, 0, 1⟩, ⟨3, 0, 0, 1⟩] := by
  norm_num [ratioTest, knnRows, world, imgFour, imgRef, List.range, List.range.loop]

/-- The metadata query of a fresh object in the world with coverage on the equator. -/
theorem QueryMetadata_equator :
    QueryMetadata (world equatorCoverage) (fresh (world equatorCoverage)) =
      (Except.ok metaEquator,
       { fresh (world equatorCoverage) with trace := [Event.curlMetadata 0 0] }) := by
  rfl

/-- The image fetch that follows it. -/
theorem QueryStreetViewImage_equator :
    QueryStreetViewImage (world equatorCoverage) metaEquator
        { fresh (world equatorCoverage) with trace := [Event.curlMetadata 0 0] } =
      (Except.ok imgRef,
       { fresh (world equatorCoverage) with
          trace := [Event.curlMetadata 0 0, Event.curlImage metaEquator, Event.imdecode [1, 2, 3]] }) := by
  rfl

/-- C2 (amended). For every pair of non-empty images whose accepted correspondence
list has fewer than 4 elements (the match indices lying within the key-point
lists), `GetMatchingPoints` makes no call of the consensus estimator and returns
normally: its value is the match image `drawMatches` drew from the accepted
correspondences, and no failure result or reason is produced.  `GetHomography`,
when it reaches that call, makes no call of the estimator either: after the
image fetch its calls are those of `GetMatchingPoints`. -/
theorem few_correspondences (e : Libs) (img1 img2 : Mat) (s : Machine)
    (h1 : img1.empty = false) (h2 : img2.empty = false)
    (good : List DMatch) (src dst : List Point2f)
    (hgood : ratioTest 0.75 (knnRows e img1 img2) [] = Except.ok good)
    (hpts : collectPoints (e.detectAndCompute img1).1 (e.detectAndCompute img2).1 good
      = Except.ok (src, dst))
    (hfew : good.length < 4) :
    GetMatchingPoints e img1 img2 s =
      (Except.ok (imgMatches e img1 img2 good),
       { s with trace := s.trace ++ matchingEvents e img1 img2 good }) ∧
    (∀ ev ∈ matchingEvents e img1 img2 good, ev.isEstimator = false) ∧
    (∀ (s0 s1 s2 : Machine) (metadata : StreetViewMetadata),
      QueryMetadata e s0 = (Except.ok metadata, s1) → metadata.available = true →
      QueryStreetViewImage e metadata s1 = (Except.ok img2, s2) →
      (GetHomography e img1 s0).2.trace = s2.trace ++ matchingEvents e img1 img2 good) := by
  have hnot : ¬ 4 ≤ good.length := by omega
  have hrun : ∀ s : Machine, GetMatchingPoints e img1 img2 s =
      (Except.ok (imgMatches e img1 img2 good),
       { s with trace := s.trace ++ matchingEvents e img1 img2 good }) := by
    intro s
    rw [GetMatchingPoints_run e img1 img2 s h1 h2 good src dst hgood hpts]
    simp [hnot]
  refine ⟨hrun s, matchingEvents_no_estimator e img1 img2 good, ?_⟩
  intro s0 s1 s2 metadata hmeta havail hfetch
  rw [GetHomography_reaches e img1 img2 s0 s1 s2 metadata hmeta havail hfetch h2, hrun]
  rfl

/-- C2 (amended), at the one-feature image against the served reference image. -/
theorem few_correspondences_witness :
    imgOne.empty = false ∧ imgRef.empty = false ∧
    GetMatchingPoints (world equatorCoverage) imgOne imgRef (fresh (world equatorCoverage)) =
      (Except.ok ⟨480, 641, 3, []⟩,
       { fresh (world equatorCoverage) with
          trace := matchingEvents (world equatorCoverage) imgOne imgRef [⟨0, 0, 0, 1⟩] }) ∧
    (GetHomography (world equatorCoverage) imgOne (fresh (world equatorCoverage))).2.trace =
      [Event.curlMetadata 0 0, Event.curlImage metaEquator, Event.imdecode [1, 2, 3]] ++
        matchingEvents (world equatorCoverage) imgOne imgRef [⟨0, 0, 0, 1⟩] := by
  have h := few_correspondences (world equatorCoverage) imgOne imgRef
    (fresh (world equatorCoverage)) rfl rfl [⟨0, 0, 0, 1⟩] [⟨4, 0⟩] [⟨1, 0⟩]
    knnRows_imgOne_imgRef rfl (by decide)
  exact ⟨rfl, rfl, h.1,
    h.2.2 _ _ _ metaEquator QueryMetadata_equator rfl QueryStreetViewImage_equator⟩

/-- C2 fails as stated: with one accepted correspondence `GetMatchingPoints` returns
a non-empty image, which is no failure result. -/
theorem one_match_still_returns_image :
    imgOne.empty = false ∧ imgTwo.empty = false ∧
    ratioTest 0.75 (knnRows (world noCoverage) imgOne imgTwo) [] = Except.ok [⟨0, 0, 0, 1⟩] ∧
    ([⟨0, 0, 0, 1⟩] : List DMatch).length < 4 ∧
    failureShaped (GetMatchingPoints (world noCoverage) imgOne imgTwo
      (fresh (world noCoverage))).1 = false := by
  have hgood : ratioTest 0.75 (knnRows (world noCoverage) imgOne imgTwo) [] =
      Except.ok [⟨0, 0, 0, 1⟩] := by
    norm_num [ratioTest, knnRows, world, imgOne, imgTwo, List.range, List.range.loop]
  refine ⟨rfl, rfl, hgood, by decide, ?_⟩
  rw [GetMatchingPoints_run (world noCoverage) imgOne imgTwo _ rfl rfl
    [⟨0, 0, 0, 1⟩] [⟨4, 0⟩] [⟨5, 0⟩] hgood rfl]
  rfl

/-- C3 (amended). For every pair of non-empty images with at least 4 accepted
correspondences (the match indices lying within the key-point lists),
`GetMatchingPoints` calls the robust estimator once, as its last library call, on
the source and destination points of those accepted correspondences with
reprojection tolerance 5.0, and the value it returns is the match image
`drawMatches` drew from the accepted correspondences, not the matrix the
estimator computed. -/
theorem enough_correspondences (e : Libs) (img1 img2 : Mat) (s : Machine)
    (h1 : img1.empty = false) (h2 : img2.empty = false)
    (good : List DMatch) (src dst : List Point2f)
    (hgood : ratioTest 0.75 (knnRows e img1 img2) [] = Except.ok good)
    (hpts : collectPoints (e.detectAndCompute img1).1 (e.detectAndCompute img2).1 good
      = Except.ok (src, dst))
    (henough : 4 ≤ good.length) :
    GetMatchingPoints e img1 img2 s =
      (Except.ok (imgMatches e img1 img2 good),
       { s with trace := s.trace ++
          (matchingEvents e img1 img2 good ++ [Event.findHomography src dst 5.0]) }) ∧
    (∀ ev ∈ matchingEvents e img1 img2 good, ev.isEstimator = false) := by
  refine ⟨?_, matchingEvents_no_estimator e img1 img2 good⟩
  rw [GetMatchingPoints_run e img1 img2 s h1 h2 good src dst hgood hpts]
  simp [henough]

/-- C3 (amended), at the four-feature image against the served reference image. -/
theorem enough_correspondences_witness :
    imgFour.empty = false ∧ imgRef.empty = false ∧
    GetMatchingPoints (world equatorCoverage) imgFour imgRef (fresh (world equatorCoverage)) =
      (Except.ok ⟨480, 642, 3, []⟩,
       { fresh (world equatorCoverage) with
          trace := matchingEvents (world equatorCoverage) imgFour imgRef
              [⟨0, 0, 0, 1⟩, ⟨1, 0, 0, 1⟩, ⟨2, 0, 0, 1⟩, ⟨3, 0, 0, 1⟩] ++
            [Event.findHomography [⟨7, 0⟩, ⟨8, 0⟩, ⟨9, 0⟩, ⟨10, 0⟩]
              [⟨1, 0⟩, ⟨1, 0⟩, ⟨1, 0⟩, ⟨1, 0⟩] 5.0] }) :=
  ⟨rfl, rfl, (enough_correspondences (world equatorCoverage) imgFour imgRef
    (fresh (world equatorCoverage)) rfl rfl _ _ _ knnRows_imgFour_imgRef rfl (by decide)).1⟩

/-- C3 fails as stated: with four accepted correspondences the value returned by
`GetMatchingPoints`, and by `GetHomography`, is not the matrix the estimator
computed from their points. -/
theorem four_matches_return_canvas :
    imgFour.empty = false ∧ imgRef.empty = false ∧
    ∃ (good : List DMatch) (src dst : List Point2f),
      ratioTest 0.75 (knnRows (world equatorCoverage) imgFour imgRef) [] = Except.ok good ∧
      4 ≤ good.length ∧
      collectPoints ((world equatorCoverage).detectAndCompute imgFour).1
        ((world equatorCoverage).detectAndCompute imgRef).1 good = Except.ok (src, dst) ∧
      (GetMatchingPoints (world equatorCoverage) imgFour imgRef
          (fresh (world equatorCoverage))).1 ≠
        Except.ok ((world equatorCoverage).findHomography src dst 5.0) ∧
      (GetHomography (world equatorCoverage) imgFour (fresh (world equatorCoverage))).1 ≠
        Except.ok ((world equatorCoverage).findHomography src dst 5.0) := by
  refine ⟨rfl, rfl, _, [⟨7, 0⟩, ⟨8, 0⟩, ⟨9, 0⟩, ⟨10, 0⟩], [⟨1, 0⟩, ⟨1, 0⟩, ⟨1, 0⟩, ⟨1, 0⟩],
    knnRows_imgFour_imgRef, by decide, rfl, ?_, ?_⟩
  · rw [GetMatchingPoints_run (world equatorCoverage) imgFour imgRef _ rfl rfl _
      [⟨7, 0⟩, ⟨8, 0⟩, ⟨9, 0⟩, ⟨10, 0⟩] [⟨1, 0⟩, ⟨1, 0⟩, ⟨1, 0⟩, ⟨1, 0⟩]
      knnRows_imgFour_imgRef rfl]
    intro h
    injection h with h
    exact absurd h (by decide)
  · rw [GetHomography_reaches (world equatorCoverage) imgFour imgRef _ _ _ metaEquator
      QueryMetadata_equator rfl QueryStreetViewImage_equator rfl,
      GetMatchingPoints_run (world equatorCoverage) imgFour imgRef _ rfl rfl _
      [⟨7, 0⟩, ⟨8, 0⟩, ⟨9, 0⟩, ⟨10, 0⟩] [⟨1, 0⟩, ⟨1, 0⟩, ⟨1, 0⟩, ⟨1, 0⟩]
      knnRows_imgFour_imgRef rfl]
    intro h
    injection h with h
    exact absurd h (by decide)

/-- C4 (amended). For every call of `GetMatchingPoints` in which an input image is
empty, the call ends in the exception `std::runtime_error("Image is empty.")`: it
returns no value, and no conversion, detection or matching step has run (the
machine is as it was).  `GetHomography`, which has no handler, ends in that same
exception when it reaches the call with an empty current image. -/
theorem empty_image_throws (e : Libs) (img1 img2 : Mat) (s : Machine)
    (h : img1.empty = true ∨ img2.empty = true) :
    GetMatchingPoints e img1 img2 s =
      (Except.error (Fault.runtime_error "Image is empty."), s) ∧
    (∀ (s0 s1 s2 : Machine) (metadata : StreetViewMetadata),
      QueryMetadata e s0 = (Except.ok metadata, s1) → metadata.available = true →
      QueryStreetViewImage e metadata s1 = (Except.ok img2, s2) → img2.empty = false →
      GetHomography e img1 s0 =
        (Except.error (Fault.runtime_error "Image is empty."),
         storeReference s2 img2 metadata)) := by
  refine ⟨GetMatchingPoints_empty e img1 img2 s h, ?_⟩
  intro s0 s1 s2 metadata hmeta havail hfetch himage
  rw [GetHomography_reaches e img1 img2 s0 s1 s2 metadata hmeta havail hfetch himage]
  exact GetMatchingPoints_empty e img1 img2 _ h

/-- C4 (amended), at the empty image against the served reference image. -/
theorem empty_image_throws_witness :
    (Mat.nil.empty = true ∨ imgRef.empty = true) ∧
    GetMatchingPoints (world equatorCoverage) Mat.nil imgRef (fresh (world equatorCoverage)) =
      (Except.error (Fault.runtime_error "Image is empty."), fresh (world equatorCoverage)) ∧
    (GetHomography (world equatorCoverage) Mat.nil (fresh (world equatorCoverage))).1 =
      Except.error (Fault.runtime_error "Image is empty.") := by
  have h := empty_image_throws (world equatorCoverage) Mat.nil imgRef
    (fresh (world equatorCoverage)) (Or.inl rfl)
  refine ⟨Or.inl rfl, h.1, ?_⟩
  rw [h.2 _ _ _ metaEquator QueryMetadata_equator rfl QueryStreetViewImage_equator rfl]

/-- C4 fails as stated: with an empty image on either side `GetMatchingPoints` ends
in an exception that leaves the call, not in a returned failure value. -/
theorem nil_image_fault_escapes :
    Mat.nil.empty = true ∧
    (GetMatchingPoints (world noCoverage) Mat.nil imgTwo (fresh (world noCoverage))).1 =
      Except.error (Fault.runtime_error "Image is empty.") ∧
    (GetMatchingPoints (world noCoverage) imgTwo Mat.nil (fresh (world noCoverage))).1 =
      Except.error (Fault.runtime_error "Image is empty.") :=
  ⟨rfl, rfl, rfl⟩

/-- C5. Where the metadata query reports no coverage, `GetHomography` returns the
empty image after the metadata request alone, but `retrieve` goes on past the
empty image `GetStreetView` gave it: it resizes the camera frame and calls
`GetMatchingPoints`, and ends in the exception `"Image is empty."`. -/
theorem retrieve_without_coverage :
    (QueryMetadata (world noCoverage) (fresh (world noCoverage))).1 =
      Except.ok ⟨false, 0, 0, "", 0⟩ ∧
    GetHomography (world noCoverage) imgFour (fresh (world noCoverage)) =
      (Except.ok Mat.nil, { fresh (world noCoverage) with trace := [Event.curlMetadata 0 0] }) ∧
    retrieve (world noCoverage) 0 0 50 imgFour (fresh (world noCoverage)) =
      (Except.error (Fault.runtime_error "Image is empty."),
       { fresh (world noCoverage) with
          trace := [Event.curlMetadata 0 0, Event.resize imgFour 640 480] }) :=
  ⟨rfl, rfl, rfl⟩

/-- C7. On a non-empty three-channel first image `GetMatchingPoints` converts it to
grey and then hands the detector the three-channel input itself: the converted
image is never used. -/
theorem detector_gets_colour_image :
    imgBgr.empty = false ∧ imgTwo.empty = false ∧ imgBgr.channels = 3 ∧
    (GetMatchingPoints (world noCoverage) imgBgr imgTwo (fresh (world noCoverage))).2.trace =
      [Event.cvtColor imgBgr,
       Event.detectAndCompute imgBgr,
       Event.drawKeypoints imgBgr ((world noCoverage).detectAndCompute imgBgr).1,
       Event.detectAndCompute imgTwo,
       Event.drawKeypoints imgTwo ((world noCoverage).detectAndCompute imgTwo).1,
       Event.knnMatch ((world noCoverage).detectAndCompute imgBgr).2
         ((world noCoverage).detectAndCompute imgTwo).2 2,
       Event.drawMatches imgBgr ((world noCoverage).detectAndCompute imgBgr).1 imgTwo
         ((world noCoverage).detectAndCompute imgTwo).1 [⟨0, 0, 0, 1⟩, ⟨1, 0, 0, 1⟩]] ∧
    (world noCoverage).cvtColor imgBgr ≠ imgBgr := by
  have hgood : ratioTest 0.75 (knnRows (world noCoverage) imgBgr imgTwo) [] =
      Except.ok [⟨0, 0, 0, 1⟩, ⟨1, 0, 0, 1⟩] := by
    norm_num [ratioTest, knnRows, world, imgBgr, imgTwo, List.range, List.range.loop]
  refine ⟨rfl, rfl, rfl, ?_, by decide⟩
  rw [GetMatchingPoints_run (world noCoverage) imgBgr imgTwo _ rfl rfl
    [⟨0, 0, 0, 1⟩, ⟨1, 0, 0, 1⟩] [⟨5, 0⟩, ⟨6, 0⟩] [⟨5, 0⟩, ⟨5, 0⟩] hgood rfl]
  rfl

/-! ## The cached reference image and the metadata record -/

/-- C9. After a reference image was fetched at (0, 0), a `GetStreetView` call for
(1, 0), where there is no coverage, stores the new coordinate, returns the empty
image and leaves `has_streetview_image_` true, with the image and metadata of
(0, 0) still in the object. -/
theorem GetStreetView_keeps_stale_flag :
    visitedEquator.self.has_streetview_image_ = true ∧
    (GetStreetView (world equatorCoverage) 1 0 50 visitedEquator).1 = Except.ok Mat.nil ∧
    (GetStreetView (world equatorCoverage) 1 0 50 visitedEquator).2.self =
      { gps_lat := 1, gps_long := 0, has_streetview_image_ := true,
        last_streetview_image_ := imgRef, last_metadata_ := metaEquator } :=
  ⟨rfl, rfl, rfl⟩

/-- C10. On the response with status OK and no location, `ParseMetadataJson`, given
a record whose flag is false, returns false and leaves the flag true; the record
`QueryMetadata` returns from that response is marked available. -/
theorem ParseMetadataJson_false_but_available :
    bareOkWorld.parse bodyOkOnly = some (Json.object [("status", Json.string "OK")]) ∧
    ParseMetadataJson bareOkWorld (MatchGoogleStreetView.new bareOkWorld)
        bodyOkOnly ⟨false, 0, 0, "", 0⟩ = (false, ⟨true, 0, 0, "", 0⟩) ∧
    (QueryMetadata bareOkWorld (fresh bareOkWorld)).1 = Except.ok ⟨true, 0, 0, "", 0⟩ :=
  ⟨rfl, rfl, rfl⟩

end VpsSlam
